import Mathlib

/-!
Verification of the remote-execution result aggregation and reporting
pipeline of the dec2 command-line tool.

The reporting driver is translated from src/dec2/cli.py (print_state,
lines 149-164).  The aggregation engine (Response.aggregate_by,
Response.aggregated_to_table from dec2/salt.py) and the tabular report
renderer (Table from dec2/utils.py) are not part of the staged sources,
so they are modelled from the design document, as marked on each
definition below.

Python values appearing in operation entries are modelled by a small
dynamic type (null, booleans, strings); an operation entry is an ordered
association list of field names to values, a node response is an ordered
association list of node ids to operation-entry sequences (Python dicts
preserve insertion order).
-/

namespace Dec2

/-- A dynamically typed field value of an operation entry: Python None,
a boolean, or a string. -/
inductive Value where
  | vnull : Value
  | vbool : Bool → Value
  | vstr : String → Value
deriving DecidableEq, Repr

/-- Python truthiness of a field value: None is falsy, a boolean is
itself, a string is truthy when non-empty. -/
def Value.truthy : Value → Bool
  | .vnull => false
  | .vbool b => b
  | .vstr s => !s.isEmpty

/-- Python str() of a field value, as used by string formatting. -/
def Value.display : Value → String
  | .vnull => "None"
  | .vbool true => "True"
  | .vbool false => "False"
  | .vstr s => s

/-- One raw operation result: the ordered field mapping of one entry of
a node response (field name to value). -/
abbrev Fields := List (String × Value)

/-- A node response: ordered mapping from node identifier to that node
sequence of raw operation results, in dispatcher enumeration order. -/
abbrev NodeResponse := List (String × List Fields)

/-- Look a field up in an operation entry (Python dict .get). -/
def getField (e : Fields) (f : String) : Option Value :=
  (e.find? (fun p => p.1 == f)).map Prod.snd

/-- Whether the given field of an entry holds a truthy value; an absent
field counts as falsy. -/
def fieldTruthy (e : Fields) (f : String) : Bool :=
  match getField e f with
  | none => false
  | some v => v.truthy

/-- The two buckets an aggregation pass derives for one node. -/
structure AggregatedNode where
  succeeded : List Fields
  failed : List Fields
deriving DecidableEq, Repr

/-- The aggregation result: ordered mapping from node identifier to its
partitioned buckets. -/
abbrev AggregationResult := List (String × AggregatedNode)

/-- Modelled from the spec: Response.aggregate_by of dec2/salt.py is not
among the staged sources.  For every node of the response, in input
order, split its operation sequence into succeeded (entries whose field
value is truthy) and failed (entries whose field value is falsy or
absent), preserving the original relative order within each bucket. -/
def aggregate_by (r : NodeResponse) (field : String) : AggregationResult :=
  r.map (fun node =>
    (node.1,
     { succeeded := node.2.filter (fun e => fieldTruthy e field),
       failed := node.2.filter (fun e => !fieldTruthy e field) }))

/-- Modelled from the spec: the engine fails with InvalidFieldError only
when the requested aggregation field is not a string/atomic key; with a
string key it never fails. -/
def aggregate_by_checked (r : NodeResponse) (field : Value) :
    Except String AggregationResult :=
  match field with
  | .vstr s => .ok (aggregate_by r s)
  | _ => .error "InvalidFieldError"

/-- Modelled from the spec: the aggregation engine never mutates its
input; this pass walks the response, builds the aggregation and hands
the traversed snapshot back alongside it. -/
def aggregate_by_pass (r : NodeResponse) (field : String) :
    AggregationResult × NodeResponse :=
  match r with
  | [] => ([], [])
  | node :: rest =>
    let part : AggregatedNode :=
      { succeeded := node.2.filter (fun e => fieldTruthy e field),
        failed := node.2.filter (fun e => !fieldTruthy e field) }
    let tail := aggregate_by_pass rest field
    ((node.1, part) :: tail.1, node :: tail.2)

/-- Modelled from the spec: Response.aggregated_to_table of
dec2/salt.py is not among the staged sources.  For every node, in
aggregation order, produce the row (nodeId, agg succeeded, agg failed)
for a caller-supplied summarizer agg. -/
def aggregated_to_table {α : Type} (r : AggregationResult)
    (agg : List Fields → α) : List (String × α × α) :=
  r.map (fun node => (node.1, agg node.2.succeeded, agg node.2.failed))

/-- The space character, used for table padding. -/
def spaceChar : Char := Char.ofNat 32

/-- A single-quote character as a string, used by the failure header. -/
def squote : String := String.singleton (Char.ofNat 39)

/-- Cell text at column i of a row (empty text past the end). -/
def cellAt (row : List String) (i : Nat) : String :=
  row.getD i ""

/-- Modelled from the spec: column width of the table renderer is the
maximum cell text width of the column, header included, plus the
padding. -/
def colWidth (rows : List (List String)) (i : Nat) (pad : Nat) : Nat :=
  (rows.map (fun row => (cellAt row i).length)).foldr Nat.max 0 + pad

/-- Left-align a cell text in a column of the given width. -/
def padCell (s : String) (w : Nat) : String :=
  s ++ String.mk (List.replicate (w - s.length) spaceChar)

/-- One rendered table line: the row cells, each left-aligned to its
column width, concatenated. -/
def renderRow (rows : List (List String)) (pad : Nat) (row : List String) :
    String :=
  String.join ((List.range row.length).map
    (fun i => padCell (cellAt row i) (colWidth rows i pad)))

/-- Whether every row of a grid has the same column count as the first
row. -/
def rectangular (rows : List (List String)) : Bool :=
  match rows with
  | [] => true
  | r0 :: rest => rest.all (fun row => row.length == r0.length)

/-- Modelled from the spec: Table of dec2/utils.py is not among the
staged sources.  Render a grid as aligned lines; when two rows differ
in column count, fail with RaggedTableError before any output is
written (the error result carries no lines at all). -/
def renderTable (rows : List (List String)) (pad : Nat) :
    Except String (List String) :=
  if rectangular rows then .ok (rows.map (renderRow rows pad))
  else .error "RaggedTableError"

/-- Extract the rendered lines of a successful rendering (no lines on
error). -/
def okLines (e : Except String (List String)) : List String :=
  match e with
  | .ok l => l
  | .error _ => []

/-- The header row of the counts table built by print_state
(src/dec2/cli.py line 153). -/
def header_row : List String := ["Node ID", "# Successful", "# Failed"]

/-- The counts-table grid built by print_state (src/dec2/cli.py lines
152-154): the header row followed by one row per node with the bucket
lengths, cells coerced to text for the renderer. -/
def state_table (output : NodeResponse) : List (List String) :=
  header_row ::
    (aggregated_to_table (aggregate_by output "result") List.length).map
      (fun row => [row.1, toString row.2.1, toString row.2.2])

/-- Replace, left to right and without overlap, every occurrence of the
three-character separator sequence underscore-bar-dash by the sequence
space-bar-space, over the character list of a name.  This is the
replace call of src/dec2/cli.py line 163 with its literal arguments. -/
def replaceSepChars : List Char → List Char
  | c1 :: c2 :: c3 :: rest =>
    if c1 = Char.ofNat 95 ∧ c2 = Char.ofNat 124 ∧ c3 = Char.ofNat 45 then
      Char.ofNat 32 :: Char.ofNat 124 :: Char.ofNat 32 :: replaceSepChars rest
    else
      c1 :: replaceSepChars (c2 :: c3 :: rest)
  | l => l

/-- The string form of the separator replacement of src/dec2/cli.py
line 163. -/
def replaceSep (s : String) : String :=
  String.mk (replaceSepChars s.data)

/-- One failure-detail line (src/dec2/cli.py lines 163-164): the entry
name with the separator sequence replaced by a readable delimiter,
then a colon and the comment, indented two spaces.  Fails when the
entry has no name field or its name is not a string (Python raises
there), or lacks a comment field. -/
def failLine (fail : Fields) : Except String String :=
  match getField fail "name" with
  | some (.vstr n) =>
    match getField fail "comment" with
    | some c => .ok ("  " ++ replaceSep n ++ ": " ++ c.display)
    | none => .error "KeyError"
  | some _ => .error "AttributeError"
  | none => .error "KeyError"

/-- Whether a failed entry renders without error. -/
def failLineOk (e : Fields) : Bool :=
  match failLine e with
  | .ok _ => true
  | .error _ => false

/-- The text of a failure-detail line when it renders (empty on
error). -/
def okFailLine (e : Fields) : String :=
  match failLine e with
  | .ok s => s
  | .error _ => ""

/-- The header line announcing a node with failed states
(src/dec2/cli.py line 161). -/
def hdrLine (nid : String) : String :=
  "Failed states for " ++ squote ++ nid ++ squote

/-- Emit the failure lines for the failed bucket of one node, in order,
stopping at the first entry that fails to render (lines echoed before
the error stay emitted). -/
def emitFails : List Fields → List String × Option String
  | [] => ([], none)
  | f :: rest =>
    match failLine f with
    | .error e => ([], some e)
    | .ok line =>
      let tail := emitFails rest
      (line :: tail.1, tail.2)

/-- The failure-detail listing of print_state (src/dec2/cli.py lines
158-164): for every node of the aggregation, in order, nothing when
its failed bucket is empty, else a header line naming the node followed
by one line per failed operation. -/
def failureLines : AggregationResult → List String × Option String
  | [] => ([], none)
  | (nid, a) :: rest =>
    if a.failed.length = 0 then failureLines rest
    else
      match emitFails a.failed with
      | (ls, some e) => (hdrLine nid :: ls, some e)
      | (ls, none) =>
        let tail := failureLines rest
        ((hdrLine nid :: ls) ++ tail.1, tail.2)

/-- The expected failure-detail block of one node: empty when the failed
bucket is, else the header line and one rendered line per failed
operation. -/
def blockOf (q : String × AggregatedNode) : List String :=
  if q.2.failed.isEmpty then []
  else hdrLine q.1 :: q.2.failed.map okFailLine

/-- print_state (src/dec2/cli.py lines 149-164): aggregate the response
by the result field, render the counts table, then echo the
failure-detail listing.  The result is the sequence of emitted lines
together with the error that aborted the report, when one did. -/
def print_state (output : NodeResponse) : List String × Option String :=
  match renderTable (state_table output) 1 with
  | .error e => ([], some e)
  | .ok tlines =>
    let fails := failureLines (aggregate_by output "result")
    (tlines ++ fails.1, fails.2)

end Dec2

namespace Dec2

/-- The end-to-end scenario's first operation entry: a succeeded
operation named with the conventional separator. -/
def scenarioOp1 : Fields :=
  [("result", Value.vbool true), ("name", Value.vstr "a_|-b"), ("comment", Value.vstr "")]

/-- The end-to-end scenario's second operation entry: a failed
operation with a comment. -/
def scenarioOp2 : Fields :=
  [("result", Value.vbool false), ("name", Value.vstr "c_|-d"), ("comment", Value.vstr "boom")]

/-- The end-to-end scenario's dispatcher response: one node with one
succeeded and one failed operation. -/
def scenarioResponse : NodeResponse := [("node-0", [scenarioOp1, scenarioOp2])]

/-- A one-node response with three succeeded and two failed
operations. -/
def exampleNode32 : NodeResponse :=
  [("node-0",
    [[("result", Value.vbool true)], [("result", Value.vbool true)],
     [("result", Value.vbool true)], [("result", Value.vbool false)],
     [("result", Value.vnull)]])]

/-- Pairs of a list zipped with its own image under a map are exactly
the graph of the mapped function. -/
theorem zip_map_self {α β : Type} (g : α → β) (l : List α) :
    ∀ q ∈ l.zip (l.map g), q.2 = g q.1 := by
  induction l with
  | nil => intro q hq; simp at hq
  | cons a t ih =>
    intro q hq
    simp only [List.map_cons, List.zip_cons_cons, List.mem_cons] at hq
    rcases hq with h | h
    · rw [h]
    · exact ih q h

/-- Filtering a list by a predicate and by its negation splits its
length exactly. -/
theorem filter_length_partition {α : Type} (p : α → Bool) (l : List α) :
    (l.filter p).length + (l.filter (fun a => !p a)).length = l.length := by
  induction l with
  | nil => rfl
  | cons a t ih =>
    cases hpa : p a <;> simp [List.filter_cons, hpa] <;> omega

/-- C1: aggregate_by on a response with N nodes yields exactly N
entries, and for every node the succeeded and failed buckets are
disjoint, every input entry lands in exactly one bucket, and the bucket
sizes add up to the node's operation count. -/
theorem aggregate_by_partition_complete (r : NodeResponse) (field : String) :
    (aggregate_by r field).length = r.length ∧
    ∀ q ∈ r.zip (aggregate_by r field),
      q.2.2.succeeded.length + q.2.2.failed.length = q.1.2.length ∧
      (∀ e ∈ q.2.2.succeeded, e ∉ q.2.2.failed) ∧
      (∀ e ∈ q.1.2, (e ∈ q.2.2.succeeded ∧ e ∉ q.2.2.failed) ∨
        (e ∈ q.2.2.failed ∧ e ∉ q.2.2.succeeded)) ∧
      (∀ e, e ∈ q.2.2.succeeded ∨ e ∈ q.2.2.failed → e ∈ q.1.2) := by
  constructor
  · simp [aggregate_by]
  · intro q hq
    have h2 := zip_map_self _ r q hq
    rw [h2]
    refine ⟨filter_length_partition _ _, ?_, ?_, ?_⟩
    · intro e he1 he2
      simp only [List.mem_filter] at he1 he2
      rw [he1.2] at he2
      simp at he2
    · intro e he
      cases hp : fieldTruthy e field
      · exact Or.inr ⟨List.mem_filter.mpr ⟨he, by simp [hp]⟩,
          fun hmem => by simp [List.mem_filter, hp] at hmem⟩
      · exact Or.inl ⟨List.mem_filter.mpr ⟨he, hp⟩,
          fun hmem => by simp [List.mem_filter, hp] at hmem⟩
    · intro e he
      rcases he with h | h <;> exact (List.mem_filter.mp h).1

/-- The counts-table grid is rectangular: every row has the header's
three cells. -/
theorem state_table_rect (output : NodeResponse) :
    rectangular (state_table output) = true := by
  simp only [rectangular, state_table, header_row, List.all_eq_true]
  intro row hrow
  simp only [List.mem_map] at hrow
  obtain ⟨x, hx, hrow⟩ := hrow
  subst hrow
  rfl

/-- C2: the counts table print_state renders has the fixed header row
first, then one row per node carrying that node's number of truthy and
falsy result entries; on a node with three succeeded and two failed
operations the summarized row is (node, 3, 2), and the rendered table
lines are a prefix of everything print_state emits. -/
theorem print_state_counts_table (output : NodeResponse) :
    state_table output =
      header_row ::
        output.map (fun node =>
          [node.1,
           toString (node.2.countP (fun e => fieldTruthy e "result")),
           toString (node.2.countP (fun e => !fieldTruthy e "result"))]) ∧
    aggregated_to_table (aggregate_by exampleNode32 "result") List.length
      = [("node-0", 3, 2)] ∧
    List.IsPrefix (okLines (renderTable (state_table output) 1))
      (print_state output).1 := by
  refine ⟨?_, rfl, ?_⟩
  · simp [state_table, aggregated_to_table, aggregate_by, List.map_map,
      List.countP_eq_length_filter]
  · rw [print_state, renderTable, if_pos (state_table_rect output)]
    exact ⟨(failureLines (aggregate_by output "result")).1, rfl⟩

/-- C4: with a string aggregation field the engine never fails; an
entry whose field is absent or null is classified into the failed
bucket of its node; and a non-string field key is the only way to get
InvalidFieldError. -/
theorem aggregate_by_missing_field_failed (r : NodeResponse) (field : String) :
    aggregate_by_checked r (Value.vstr field) = Except.ok (aggregate_by r field) ∧
    (∀ q ∈ r.zip (aggregate_by r field), ∀ e ∈ q.1.2,
       (getField e field = none ∨ getField e field = some Value.vnull) →
       e ∈ q.2.2.failed) ∧
    (∀ v : Value, (∀ s, v ≠ Value.vstr s) →
       aggregate_by_checked r v = Except.error "InvalidFieldError") := by
  refine ⟨rfl, ?_, ?_⟩
  · intro q hq e he hmiss
    have h2 := zip_map_self _ r q hq
    rw [h2]
    have hft : fieldTruthy e field = false := by
      rcases hmiss with h | h <;> simp [fieldTruthy, h, Value.truthy]
    exact List.mem_filter.mpr ⟨he, by simp [hft]⟩
  · intro v hv
    cases v with
    | vnull => rfl
    | vbool b => rfl
    | vstr s => exact absurd rfl (hv s)

/-- When every failed entry of a bucket renders, emitFails yields one
line per entry, in order, and no error. -/
theorem emitFails_ok (l : List Fields) (h : ∀ e ∈ l, failLineOk e = true) :
    emitFails l = (l.map okFailLine, none) := by
  induction l with
  | nil => rfl
  | cons f t ih =>
    have hf := h f (by simp)
    rw [emitFails]
    cases hfl : failLine f with
    | error e => simp [failLineOk, hfl] at hf
    | ok line =>
      rw [ih (fun e he => h e (by simp [he]))]
      simp [okFailLine, hfl]

/-- When every failed entry renders, the failure-detail listing is the
concatenation, node by node in order, of each node's expected block,
with no error. -/
theorem failureLines_ok (agg : AggregationResult)
    (h : ∀ q ∈ agg, ∀ e ∈ q.2.failed, failLineOk e = true) :
    failureLines agg = ((agg.map blockOf).flatten, none) := by
  induction agg with
  | nil => rfl
  | cons q rest ih =>
    obtain ⟨nid, a⟩ := q
    have hq : ∀ e ∈ a.failed, failLineOk e = true := h (nid, a) (by simp)
    have hrest := ih (fun p hp => h p (by simp [hp]))
    by_cases hf : a.failed.length = 0
    · have hemp : a.failed.isEmpty = true := by
        cases hfa : a.failed
        · rfl
        · rw [hfa] at hf; simp at hf
      rw [failureLines, if_pos hf, hrest]
      simp [blockOf, hemp]
    · have hemp : a.failed.isEmpty = false := by
        cases hfa : a.failed
        · rw [hfa] at hf; simp at hf
        · rfl
      rw [failureLines, if_neg hf, emitFails_ok a.failed hq, hrest]
      simp [blockOf, hemp]

/-- C3: after the rendered counts table, print_state emits one
failure-detail block per node with a non-empty failed bucket, in order,
each a header line naming the node followed by one line per failed
operation; nodes with an empty failed bucket contribute nothing. -/
theorem print_state_failure_detail (output : NodeResponse)
    (h : ∀ q ∈ aggregate_by output "result", ∀ e ∈ q.2.failed, failLineOk e = true) :
    print_state output =
      (okLines (renderTable (state_table output) 1) ++
        ((aggregate_by output "result").map blockOf).flatten, none) := by
  rw [print_state, renderTable, if_pos (state_table_rect output),
    failureLines_ok _ h]
  rfl

/-- Witness for C3 at the end-to-end scenario response. -/
theorem print_state_failure_detail_w :
    print_state scenarioResponse =
      (okLines (renderTable (state_table scenarioResponse) 1) ++
        ((aggregate_by scenarioResponse "result").map blockOf).flatten, none) :=
  print_state_failure_detail scenarioResponse (by decide)

/-- The reading pass of the aggregation engine returns the aggregation
together with the untouched input snapshot. -/
theorem aggregate_by_pass_spec (r : NodeResponse) (field : String) :
    aggregate_by_pass r field = (aggregate_by r field, r) := by
  induction r with
  | nil => rfl
  | cons node rest ih => rw [aggregate_by_pass, ih]; rfl

/-- C5: aggregation and reporting preserve order end to end: the
aggregation lists nodes in input order, each bucket is a sublist of the
node's original operation sequence (so relative order is preserved),
and the failure listing walks nodes in aggregation order with each
node's failed operations mapped in their bucket order. -/
theorem aggregate_order_end_to_end (r : NodeResponse) (field : String) :
    (aggregate_by r field).map Prod.fst = r.map Prod.fst ∧
    (∀ q ∈ r.zip (aggregate_by r field),
       List.Sublist q.2.2.succeeded q.1.2 ∧ List.Sublist q.2.2.failed q.1.2) ∧
    (∀ agg : AggregationResult,
       (∀ q ∈ agg, ∀ e ∈ q.2.failed, failLineOk e = true) →
       (failureLines agg).1 = (agg.map blockOf).flatten) := by
  refine ⟨by simp [aggregate_by, List.map_map], ?_, ?_⟩
  · intro q hq
    have h2 := zip_map_self _ r q hq
    rw [h2]
    exact ⟨List.filter_sublist _, List.filter_sublist _⟩
  · intro agg h
    rw [failureLines_ok agg h]

/-- C6 counterexample: the failed scenario entry is printed as the
indented line, which differs from the unindented line the claim names,
and only the indented line occurs in the print_state output. -/
theorem failLine_indent_cex :
    failLine scenarioOp2 = Except.ok "  c | d: boom" ∧
    "  c | d: boom" ≠ "c | d: boom" ∧
    "  c | d: boom" ∈ (print_state scenarioResponse).1 ∧
    "c | d: boom" ∉ (print_state scenarioResponse).1 :=
  ⟨rfl, by decide, by decide, by decide⟩

/-- C6 amended: a failed entry with string name and comment is printed
as two spaces, the name with the separator sequence replaced by a
readable delimiter, a colon and space, then the comment; so the
scenario entry yields the line with text c | d: boom after the
indent. -/
theorem failLine_display_format (e : Fields) (n c : String)
    (hn : getField e "name" = some (Value.vstr n))
    (hc : getField e "comment" = some (Value.vstr c)) :
    failLine e = Except.ok ("  " ++ replaceSep n ++ ": " ++ c) ∧
    replaceSep "c_|-d" = "c | d" ∧
    "  c | d: boom" ∈ (print_state scenarioResponse).1 := by
  refine ⟨?_, by decide, by decide⟩
  rw [failLine, hn, hc]
  rfl

/-- Witness for the amended C6 at the scenario's failed entry. -/
theorem failLine_display_format_w :
    failLine scenarioOp2 = Except.ok ("  " ++ replaceSep "c_|-d" ++ ": " ++ "boom") ∧
    replaceSep "c_|-d" = "c | d" ∧
    "  c | d: boom" ∈ (print_state scenarioResponse).1 :=
  failLine_display_format scenarioOp2 "c_|-d" "boom" rfl rfl

/-- C7: aggregation is a deterministic pure function: two runs on the
same response and field agree structurally, and rerunning the pass on
the snapshot the first pass hands back rebuilds the same
aggregation. -/
theorem aggregate_by_deterministic (r : NodeResponse) (field : String) :
    aggregate_by r field = aggregate_by r field ∧
    (aggregate_by_pass (aggregate_by_pass r field).2 field).1 =
      (aggregate_by_pass r field).1 := by
  refine ⟨rfl, ?_⟩
  rw [aggregate_by_pass_spec, aggregate_by_pass_spec]

/-- C8: on a grid where two rows differ in column count the renderer
fails with RaggedTableError and its result carries no output lines at
all; in particular the two-row ragged example fails so. -/
theorem renderTable_ragged_error (rows : List (List String)) (pad : Nat)
    (h : ∃ r1 ∈ rows, ∃ r2 ∈ rows, r1.length ≠ r2.length) :
    renderTable rows pad = Except.error "RaggedTableError" ∧
    okLines (renderTable rows pad) = [] ∧
    renderTable [["a", "b"], ["c"]] 1 = Except.error "RaggedTableError" := by
  have hrect : rectangular rows = false := by
    cases rows with
    | nil => simp at h
    | cons r0 rest =>
      cases hrr : rectangular (r0 :: rest) with
      | false => rfl
      | true =>
        simp only [rectangular, List.all_eq_true, beq_iff_eq] at hrr
        obtain ⟨r1, hr1, r2, hr2, hne12⟩ := h
        have len : ∀ row ∈ r0 :: rest, row.length = r0.length := by
          intro row hrow
          rcases List.mem_cons.mp hrow with hcase | hcase
          · rw [hcase]
          · exact hrr row hcase
        exact absurd ((len r1 hr1).trans (len r2 hr2).symm) hne12
  rw [renderTable, if_neg (by simp [hrect])]
  exact ⟨rfl, rfl, rfl⟩

/-- Witness for C8 at the ragged two-row grid. -/
theorem renderTable_ragged_error_w :
    renderTable [["a", "b"], ["c"]] 1 = Except.error "RaggedTableError" ∧
    okLines (renderTable [["a", "b"], ["c"]] 1) = [] ∧
    renderTable [["a", "b"], ["c"]] 1 = Except.error "RaggedTableError" :=
  renderTable_ragged_error [["a", "b"], ["c"]] 1 (by decide)

/-- C9: the aggregation pass hands its input back structurally
unchanged while building the same aggregation the engine exposes. -/
theorem aggregate_by_input_preserved (r : NodeResponse) (field : String) :
    (aggregate_by_pass r field).2 = r ∧
    (aggregate_by_pass r field).1 = aggregate_by r field := by
  rw [aggregate_by_pass_spec]
  exact ⟨rfl, rfl⟩

/-- C10: on a response with zero nodes the counts grid is the header
row alone, print_state emits exactly the one rendered header line with
no error, and the failure-detail listing is empty. -/
theorem print_state_empty_response :
    state_table ([] : NodeResponse) = [header_row] ∧
    print_state ([] : NodeResponse) =
      ([renderRow [header_row] 1 header_row], none) ∧
    (failureLines (aggregate_by ([] : NodeResponse) "result")).1 = [] :=
  ⟨rfl, by rfl, rfl⟩

end Dec2
